import Mathlib

/-!
Verification development for the `ai.three.js.demo` repository.

The two verifiable cores of the repository are embedded shallowly:

* `FPSCounter` (from `src/FPSCounter.ts`): a frame-rate monitor fed a
  timestamp per frame.  JavaScript numbers are modelled as exact
  rationals `ℚ`; all arithmetic performed by the class (subtraction,
  list sum, division, `Math.round`) is exact on the inputs the claims
  quantify over, so no floating-point rounding is lost that could
  affect any stated property.  The two DOM elements the counter writes
  to are modelled as values carried inside the state (the counter is
  their only writer).

* the render-loop scheduling state of `Scene` (from `src/Scene.ts`):
  `start`/`stop`/frame-callback interplay with the host scheduler
  (`requestAnimationFrame`/`cancelAnimationFrame`) is modelled as an
  explicit transition system whose state records the set of pending
  callback ids, the next id the scheduler will hand out, and the
  `animationId` field of the class.

* the camera aspect-ratio computation of the `Scene` constructor,
  which depends on JavaScript `Infinity`/`NaN`/truthiness semantics of
  `w / h || 1`; a dedicated sum type `JSNum` captures exactly the
  classification (finite / infinite / NaN) of the quotient of the two
  nonnegative integers `clientWidth` and `clientHeight`, which IEEE
  rounding cannot alter for DOM-sized integers.

* the keyboard-driven camera rotation of `Scene.render`, over exact
  reals as the claim demands.
-/

/-- A DOM element as the FPS counter sees it: its identity (the DOM id
it was looked up by) and its `textContent`. -/
structure Element where
  domId : String
  textContent : String
deriving DecidableEq

/-- Field `private maxFrameSamples: number = 60` of `FPSCounter`. -/
def maxFrameSamples : ℕ := 60

/-- Field `private fpsUpdateInterval: number = 1000` of `FPSCounter`. -/
def fpsUpdateInterval : ℚ := 1000

/-- State of the `FPSCounter` class: its mutable fields plus the two
borrowed display elements (whose text it mutates). -/
structure FPSCounter where
  fpsElement : Element
  frameTimeElement : Element
  lastTime : ℚ
  frames : ℕ
  currentFPS : ℤ
  lastFPSUpdate : ℚ
  frameTimes : List ℚ
deriving DecidableEq

/-- The state produced by a successful `FPSCounter` constructor: both
elements resolved and stored, every numeric field at its initializer
value (`0` / empty window). -/
def FPSCounter.init (fpsEl frameTimeEl : Element) : FPSCounter :=
  { fpsElement := fpsEl
    frameTimeElement := frameTimeEl
    lastTime := 0
    frames := 0
    currentFPS := 0
    lastFPSUpdate := 0
    frameTimes := [] }

/-- The `FPSCounter` constructor, lines 12-26: looks up both ids in the
document (modelled as a partial map from id to element), throws if the
first is missing, then if the second is missing, otherwise stores both
handles. -/
def FPSCounter.construct (doc : String → Option Element)
    (fpsElementId frameTimeElementId : String) : Except String FPSCounter :=
  match doc fpsElementId with
  | none => Except.error ("FPS element with id \"" ++ fpsElementId ++ "\" not found")
  | some fpsEl =>
    match doc frameTimeElementId with
    | none =>
        Except.error ("Frame time element with id \"" ++ frameTimeElementId ++ "\" not found")
    | some frameTimeEl => Except.ok (FPSCounter.init fpsEl frameTimeEl)

/-- Lines 30-46 of `update`: when a prior timestamp exists
(`this.lastTime > 0`), push the delta into the window, evict the
oldest sample when the window exceeds 60 entries, bump the frame
count, and recompute `currentFPS` from the window average. -/
def FPSCounter.updateFrame (s : FPSCounter) (currentTime : ℚ) : FPSCounter :=
  if 0 < s.lastTime then
    let deltaTime := currentTime - s.lastTime
    let ft0 := s.frameTimes ++ [deltaTime]
    let ft := if maxFrameSamples < ft0.length then ft0.tail else ft0
    let s' := { s with frameTimes := ft, frames := s.frames + 1 }
    if 0 < ft.length then
      let avgFrameTime := ft.sum / (ft.length : ℚ)
      { s' with currentFPS :=
          if 0 < avgFrameTime then round ((1000 : ℚ) / avgFrameTime) else 0 }
    else s'
  else s

/-- Rendering of a rational as JavaScript `toFixed(2)` does: the value
rounded to two decimal places and printed with exactly two digits
after the point.  Only the occurrence of the display write matters to
the claims, not this string's exact characters. -/
def toFixed2 (q : ℚ) : String :=
  let n := round (q * 100)
  let a := n.natAbs
  (if n < 0 then "-" else "")
    ++ toString (a / 100) ++ "."
    ++ (if a % 100 < 10 then "0" else "") ++ toString (a % 100)

/-- Lines 48-61 of `update`: when at least `fpsUpdateInterval` has
elapsed since the last display write and the window is non-empty,
write `currentFPS` (integer string) and the window average (2-decimal
string) into the two elements, zero the frame count and record the
write time. -/
def FPSCounter.updateDisplay (s : FPSCounter) (currentTime : ℚ) : FPSCounter :=
  if fpsUpdateInterval ≤ currentTime - s.lastFPSUpdate then
    if 0 < s.frameTimes.length then
      let avgFrameTime := s.frameTimes.sum / (s.frameTimes.length : ℚ)
      { s with
          fpsElement := { s.fpsElement with textContent := toString s.currentFPS }
          frameTimeElement := { s.frameTimeElement with textContent := toFixed2 avgFrameTime }
          frames := 0
          lastFPSUpdate := currentTime }
    else s
  else s

/-- Method `update(currentTime)`, lines 28-64: the frame-time block, then the
throttled display block, then `this.lastTime = currentTime`. -/
def FPSCounter.update (s : FPSCounter) (currentTime : ℚ) : FPSCounter :=
  { (s.updateFrame currentTime).updateDisplay currentTime with lastTime := currentTime }

/-- Method `getCurrentFPS()`, lines 66-68. -/
def FPSCounter.getCurrentFPS (s : FPSCounter) : ℤ :=
  s.currentFPS

/-- Method `getCurrentFrameTime()`, lines 70-75: `0` on an empty window, else
the window average. -/
def FPSCounter.getCurrentFrameTime (s : FPSCounter) : ℚ :=
  if s.frameTimes.length = 0 then 0 else s.frameTimes.sum / (s.frameTimes.length : ℚ)

/-- Method `dispose()`, lines 85-92: zero the timestamp, frame count, FPS and
window, and write `"0"` into both elements (keeping the element
references themselves). -/
def FPSCounter.dispose (s : FPSCounter) : FPSCounter :=
  { s with
      lastTime := 0
      frames := 0
      currentFPS := 0
      frameTimes := []
      fpsElement := { s.fpsElement with textContent := "0" }
      frameTimeElement := { s.frameTimeElement with textContent := "0" } }

/-- Folding a whole sequence of `update` calls over a state. -/
def FPSCounter.runUpdates (s : FPSCounter) : List ℚ → FPSCounter
  | [] => s
  | t :: ts => (s.update t).runUpdates ts

/-- Whether the call `update currentTime` on state `s` reaches the two
display-element writes of lines 54-55: the throttle guard and the
non-empty-window guard, evaluated on the state after the frame-time
block, as in the source. -/
def FPSCounter.writesDisplay (s : FPSCounter) (currentTime : ℚ) : Bool :=
  let s1 := s.updateFrame currentTime
  decide (fpsUpdateInterval ≤ currentTime - s1.lastFPSUpdate)
    && decide (0 < s1.frameTimes.length)

/-- The timestamps of the `update` calls in a run that perform a
display write. -/
def FPSCounter.writeTimes (s : FPSCounter) : List ℚ → List ℚ
  | [] => []
  | t :: ts =>
      if s.writesDisplay t then t :: (s.update t).writeTimes ts
      else (s.update t).writeTimes ts

/-! ### Render-loop scheduling state of `Scene` (src/Scene.ts lines 427-445)

`start()` returns early when `animationId !== null`; otherwise it runs
`animate`, which stores `requestAnimationFrame(animate)` into
`animationId` and renders.  Each time the host fires the pending
callback, `animate` runs again.  `stop()` cancels the pending callback
and nulls `animationId`.  The host scheduler is modelled explicitly:
`pending` is the queue of callback ids currently scheduled, `nextId`
the next id `requestAnimationFrame` will return (ids are positive and
fresh).  Rendering itself touches no scheduling state and is omitted
from this state type. -/

structure SceneState where
  pending : List ℕ
  nextId : ℕ
  animationId : Option ℕ
deriving DecidableEq

/-- The scheduling state right after the `Scene` constructor:
`animationId = null`, nothing scheduled. -/
def SceneState.mkScene : SceneState :=
  { pending := [], nextId := 1, animationId := none }

/-- Host `requestAnimationFrame`: returns a fresh id and appends the
callback to the pending queue. -/
def SceneState.requestFrame (st : SceneState) : ℕ × SceneState :=
  (st.nextId, { st with pending := st.pending ++ [st.nextId], nextId := st.nextId + 1 })

/-- Host `cancelAnimationFrame(id)`: removes that callback from the
pending queue. -/
def SceneState.cancelFrame (st : SceneState) (i : ℕ) : SceneState :=
  { st with pending := st.pending.filter (fun j => decide (j ≠ i)) }

/-- One execution of the `animate` closure of `start()`:
`this.animationId = requestAnimationFrame(animate); this.render()`. -/
def SceneState.animateOnce (st : SceneState) : SceneState :=
  let r := st.requestFrame
  { r.2 with animationId := some r.1 }

/-- Method `start()`, lines 427-438: no-op when `animationId !== null`, else
run `animate` once (which schedules the next frame). -/
def SceneState.start (st : SceneState) : SceneState :=
  match st.animationId with
  | some _ => st
  | none => st.animateOnce

/-- Method `stop()`, lines 440-445: when running, cancel the pending callback
and null `animationId`; else no-op. -/
def SceneState.stop (st : SceneState) : SceneState :=
  match st.animationId with
  | some i => { st.cancelFrame i with animationId := none }
  | none => st

/-- External events that touch the scheduling state: the public
`start`/`stop` calls and the host firing the oldest pending callback
(which runs `animate`). -/
inductive SceneEvent where
  | start : SceneEvent
  | stop : SceneEvent
  | frame : SceneEvent
deriving DecidableEq

/-- One event step. A `frame` event with nothing pending is a host
no-op. -/
def SceneState.step (st : SceneState) : SceneEvent → SceneState
  | SceneEvent.start => st.start
  | SceneEvent.stop => st.stop
  | SceneEvent.frame =>
      match st.pending with
      | [] => st
      | _ :: rest => SceneState.animateOnce { st with pending := rest }

/-- Run a sequence of events from the post-construction state. -/
def SceneState.run (evs : List SceneEvent) : SceneState :=
  evs.foldl SceneState.step SceneState.mkScene

/-- The scheduling invariant tying the class field to the host
scheduler: either idle with nothing pending, or running with exactly
the one callback recorded in `animationId` pending. -/
def SceneInvariant (st : SceneState) : Prop :=
  (st.animationId = none ∧ st.pending = []) ∨
  (∃ i, st.animationId = some i ∧ st.pending = [i])

/-- A concrete single-page document for the C7 witness. -/
def docW : String → Option Element := fun s =>
  if s = "fps" then some ⟨"fps", "-"⟩
  else if s = "frametime" then some ⟨"frametime", "-"⟩
  else none

/-- A concrete monitor state with a positive recorded timestamp, for
the C2 witness. -/
def counterW : FPSCounter :=
  { fpsElement := ⟨"fps", "0"⟩
    frameTimeElement := ⟨"frametime", "0"⟩
    lastTime := 1
    frames := 0
    currentFPS := 0
    lastFPSUpdate := 0
    frameTimes := [] }


/-! ### Initial aspect ratio of the `Scene` constructor (src/Scene.ts line 36)

`const aspect = container.clientWidth / container.clientHeight || 1;`

`clientWidth`/`clientHeight` are nonnegative DOM integers.  The result
of the JavaScript division is classified exactly: finite quotient when
the height is positive, `Infinity` when only the width is positive,
`NaN` for `0 / 0`.  (IEEE rounding of a finite quotient of DOM-sized
integers can never produce `0` from a nonzero quotient, so truthiness
is unaffected by rounding and the `ℚ` value is used for the finite
case.)  `x || 1` keeps `x` when it is truthy — and `Infinity` IS
truthy — and otherwise yields `1`. -/

inductive JSNum where
  | fin (q : ℚ) : JSNum
  | posInf : JSNum
  | negInf : JSNum
  | nan : JSNum
deriving DecidableEq

/-- JavaScript truthiness of a number: `0`, `-0` and `NaN` are falsy,
everything else (including the infinities) is truthy. -/
def JSNum.truthy : JSNum → Bool
  | JSNum.fin q => decide (q ≠ 0)
  | JSNum.nan => false
  | _ => true

/-- JavaScript division of two nonnegative integer numbers. -/
def jsDivNat (w h : ℕ) : JSNum :=
  if h = 0 then (if w = 0 then JSNum.nan else JSNum.posInf)
  else JSNum.fin ((w : ℚ) / (h : ℚ))

/-- Evaluation of `x || 1` on a number. -/
def jsOrOne (x : JSNum) : JSNum :=
  if x.truthy then x else JSNum.fin 1

/-- The initial camera aspect value computed by the `Scene`
constructor from the container's dimensions. -/
def initialAspect (w h : ℕ) : JSNum :=
  jsOrOne (jsDivNat w h)

/-! ### Keyboard-driven camera rotation (src/Scene.ts lines 145-175)

The A/D/ArrowLeft/ArrowRight branches of `handleKeyboardMovement` each
read the camera's `x`/`z`, then assign
`x' = x*cos(angle) - z*sin(angle)`, `z' = x*sin(angle) + z*cos(angle)`
with `angle = rotateSpeed` for A/ArrowLeft and `-rotateSpeed` for
D/ArrowRight.  Exact real arithmetic, as the claim demands. -/

structure Vec3 where
  x : ℝ
  y : ℝ
  z : ℝ

/-- Field `private rotateSpeed: number = 0.02`. -/
noncomputable def rotateSpeed : ℝ := 0.02

/-- The simultaneous `x`/`z` assignment one key branch performs. -/
noncomputable def rotateYBy (angle : ℝ) (p : Vec3) : Vec3 :=
  { x := p.x * Real.cos angle - p.z * Real.sin angle
    y := p.y
    z := p.x * Real.sin angle + p.z * Real.cos angle }

/-- The rotation-key flags of the `keys` map consulted by
`handleKeyboardMovement` (the W/S translation branches are outside
this claim). -/
structure RotKeys where
  keyA : Bool
  keyD : Bool
  left : Bool
  right : Bool

/-- The four rotation branches of `handleKeyboardMovement`, in source
order: A, D, ArrowLeft, ArrowRight. -/
noncomputable def handleRotationKeys (k : RotKeys) (p : Vec3) : Vec3 :=
  let p1 := if k.keyA then rotateYBy rotateSpeed p else p
  let p2 := if k.keyD then rotateYBy (-rotateSpeed) p1 else p1
  let p3 := if k.left then rotateYBy rotateSpeed p2 else p2
  if k.right then rotateYBy (-rotateSpeed) p3 else p3

/-- The camera position after a sequence of `render()` calls, with the
key state sampled at each call. -/
noncomputable def renderRotations (ks : List RotKeys) (p : Vec3) : Vec3 :=
  ks.foldl (fun q k => handleRotationKeys k q) p

/-! ### Projection lemmas for the two halves of `update` -/

theorem FPSCounter.updateFrame_lastFPSUpdate (s : FPSCounter) (t : ℚ) :
    (s.updateFrame t).lastFPSUpdate = s.lastFPSUpdate := by
  unfold FPSCounter.updateFrame
  dsimp only
  split_ifs <;> rfl

theorem FPSCounter.updateFrame_fpsElement (s : FPSCounter) (t : ℚ) :
    (s.updateFrame t).fpsElement = s.fpsElement := by
  unfold FPSCounter.updateFrame
  dsimp only
  split_ifs <;> rfl

theorem FPSCounter.updateFrame_frameTimeElement (s : FPSCounter) (t : ℚ) :
    (s.updateFrame t).frameTimeElement = s.frameTimeElement := by
  unfold FPSCounter.updateFrame
  dsimp only
  split_ifs <;> rfl

theorem FPSCounter.updateFrame_frameTimes (s : FPSCounter) (t : ℚ) :
    (s.updateFrame t).frameTimes =
      if 0 < s.lastTime then
        (if maxFrameSamples < (s.frameTimes ++ [t - s.lastTime]).length
         then (s.frameTimes ++ [t - s.lastTime]).tail
         else s.frameTimes ++ [t - s.lastTime])
      else s.frameTimes := by
  unfold FPSCounter.updateFrame
  dsimp only
  split_ifs <;> rfl

theorem FPSCounter.updateDisplay_frameTimes (s : FPSCounter) (t : ℚ) :
    (s.updateDisplay t).frameTimes = s.frameTimes := by
  unfold FPSCounter.updateDisplay
  dsimp only
  split_ifs <;> rfl

theorem FPSCounter.updateDisplay_currentFPS (s : FPSCounter) (t : ℚ) :
    (s.updateDisplay t).currentFPS = s.currentFPS := by
  unfold FPSCounter.updateDisplay
  dsimp only
  split_ifs <;> rfl

theorem FPSCounter.update_lastTime (s : FPSCounter) (t : ℚ) :
    (s.update t).lastTime = t := rfl

theorem FPSCounter.update_frameTimes (s : FPSCounter) (t : ℚ) :
    (s.update t).frameTimes = (s.updateFrame t).frameTimes := by
  unfold FPSCounter.update
  exact (s.updateFrame t).updateDisplay_frameTimes t

theorem FPSCounter.update_currentFPS (s : FPSCounter) (t : ℚ) :
    (s.update t).currentFPS = (s.updateFrame t).currentFPS := by
  unfold FPSCounter.update
  exact (s.updateFrame t).updateDisplay_currentFPS t

theorem FPSCounter.updateDisplay_of_guard (s : FPSCounter) (t : ℚ)
    (h1 : fpsUpdateInterval ≤ t - s.lastFPSUpdate) (h2 : 0 < s.frameTimes.length) :
    s.updateDisplay t =
      { s with
          fpsElement := { s.fpsElement with textContent := toString s.currentFPS }
          frameTimeElement := { s.frameTimeElement with
            textContent := toFixed2 (s.frameTimes.sum / (s.frameTimes.length : ℚ)) }
          frames := 0
          lastFPSUpdate := t } := by
  unfold FPSCounter.updateDisplay
  rw [if_pos h1, if_pos h2]

theorem FPSCounter.updateDisplay_of_not_guard (s : FPSCounter) (t : ℚ)
    (h : ¬ (fpsUpdateInterval ≤ t - s.lastFPSUpdate ∧ 0 < s.frameTimes.length)) :
    s.updateDisplay t = s := by
  unfold FPSCounter.updateDisplay
  split_ifs with h1 h2
  · exact absurd ⟨h1, h2⟩ h
  · rfl
  · rfl

theorem FPSCounter.writesDisplay_iff (s : FPSCounter) (t : ℚ) :
    s.writesDisplay t = true ↔
      (fpsUpdateInterval ≤ t - s.lastFPSUpdate ∧ 0 < (s.updateFrame t).frameTimes.length) := by
  unfold FPSCounter.writesDisplay
  dsimp only
  rw [s.updateFrame_lastFPSUpdate t]
  simp

theorem FPSCounter.update_lastFPSUpdate_of_writes (s : FPSCounter) (t : ℚ)
    (h : s.writesDisplay t = true) :
    (s.update t).lastFPSUpdate = t := by
  obtain ⟨h1, h2⟩ := (s.writesDisplay_iff t).mp h
  unfold FPSCounter.update
  rw [FPSCounter.updateDisplay_of_guard _ _ (by rwa [s.updateFrame_lastFPSUpdate t]) h2]

theorem FPSCounter.update_of_not_writes (s : FPSCounter) (t : ℚ)
    (h : s.writesDisplay t = false) :
    (s.update t).lastFPSUpdate = s.lastFPSUpdate
    ∧ (s.update t).fpsElement = s.fpsElement
    ∧ (s.update t).frameTimeElement = s.frameTimeElement := by
  have hng : ¬ (fpsUpdateInterval ≤ t - (s.updateFrame t).lastFPSUpdate
      ∧ 0 < (s.updateFrame t).frameTimes.length) := by
    intro hc
    rw [s.updateFrame_lastFPSUpdate t] at hc
    exact absurd ((s.writesDisplay_iff t).mpr hc) (by simp [h])
  unfold FPSCounter.update
  rw [FPSCounter.updateDisplay_of_not_guard _ _ hng]
  exact ⟨s.updateFrame_lastFPSUpdate t, s.updateFrame_fpsElement t,
    s.updateFrame_frameTimeElement t⟩

/-! ### C4: the first update only records the timestamp -/

/-- C4: for every freshly constructed monitor and every timestamp `t`,
one `update t` call changes only `lastTime` (to `t`): no delta is
computed, no sample is pushed, and `getCurrentFPS` still returns 0. -/
theorem FPSCounter.first_update_only_records_timestamp (e0 e1 : Element) (t : ℚ) :
    (FPSCounter.init e0 e1).update t = { FPSCounter.init e0 e1 with lastTime := t }
    ∧ ((FPSCounter.init e0 e1).update t).getCurrentFPS = 0 := by
  have h1 : (FPSCounter.init e0 e1).updateFrame t = FPSCounter.init e0 e1 := by
    unfold FPSCounter.updateFrame FPSCounter.init
    norm_num
  have h2 : (FPSCounter.init e0 e1).updateDisplay t = FPSCounter.init e0 e1 := by
    refine FPSCounter.updateDisplay_of_not_guard _ _ ?_
    rintro ⟨-, h⟩
    simp [FPSCounter.init] at h
  constructor
  · unfold FPSCounter.update
    rw [h1, h2]
  · have h3 : ((FPSCounter.init e0 e1).update t).currentFPS = 0 := by
      rw [FPSCounter.update_currentFPS, h1]
      rfl
    simpa [FPSCounter.getCurrentFPS] using h3

/-! ### C6: dispose is an idempotent reset that keeps the handles -/

/-- C6: `dispose` is idempotent, and from any state (in particular
after any prior `update` activity) it zeroes `lastTime`, empties the
window, zeroes `getCurrentFPS` and `getCurrentFrameTime`, writes `"0"`
into both display elements, and keeps both element references (their
identities are unchanged). -/
theorem FPSCounter.dispose_idempotent_resets (s : FPSCounter) :
    s.dispose.dispose = s.dispose
    ∧ s.dispose.lastTime = 0
    ∧ s.dispose.frameTimes = []
    ∧ s.dispose.getCurrentFPS = 0
    ∧ s.dispose.getCurrentFrameTime = 0
    ∧ s.dispose.fpsElement.textContent = "0"
    ∧ s.dispose.frameTimeElement.textContent = "0"
    ∧ s.dispose.fpsElement.domId = s.fpsElement.domId
    ∧ s.dispose.frameTimeElement.domId = s.frameTimeElement.domId := by
  refine ⟨rfl, rfl, rfl, rfl, ?_, rfl, rfl, rfl, rfl⟩
  simp [FPSCounter.dispose, FPSCounter.getCurrentFrameTime]

/-! ### C7: constructor fails exactly when a display target is missing -/

/-- C7: construction succeeds iff both display-target ids resolve in
the document; on success the two resolved handles are stored (in a
state with all counters zeroed), and on any failure an error is
raised. -/
theorem FPSCounter.construction_fail_fast (doc : String → Option Element)
    (fpsId frameTimeId : String) :
    ((∃ c, FPSCounter.construct doc fpsId frameTimeId = Except.ok c) ↔
        (doc fpsId).isSome ∧ (doc frameTimeId).isSome)
    ∧ (∀ ea eb, doc fpsId = some ea → doc frameTimeId = some eb →
        FPSCounter.construct doc fpsId frameTimeId = Except.ok (FPSCounter.init ea eb))
    ∧ (((doc fpsId).isSome ∧ (doc frameTimeId).isSome → False) →
        ∃ msg, FPSCounter.construct doc fpsId frameTimeId = Except.error msg) := by
  unfold FPSCounter.construct
  rcases hA : doc fpsId with _ | ea <;> rcases hB : doc frameTimeId with _ | eb <;>
    simp [hA, hB]

/-- C7 witness: on a concrete document holding both targets,
construction succeeds and stores the two resolved handles. -/
theorem FPSCounter.construction_fail_fast_witness :
    FPSCounter.construct docW "fps" "frametime" =
      Except.ok (FPSCounter.init ⟨"fps", "-"⟩ ⟨"frametime", "-"⟩) :=
  (FPSCounter.construction_fail_fast docW "fps" "frametime").2.1
    ⟨"fps", "-"⟩ ⟨"frametime", "-"⟩ (by decide) (by decide)

/-! ### C8: the aspect-ratio fallback -/

/-- C8 counterexample: with a container of width 800 and height 0 the
constructor's aspect expression evaluates to `Infinity` (truthy, so
the `|| 1` does not engage), not to `1` as the claim states. -/
theorem initialAspect_height_zero_not_one :
    initialAspect 800 0 = JSNum.posInf ∧ JSNum.posInf ≠ JSNum.fin 1 := by
  constructor
  · decide
  · decide

/-- C8 (amended): the constructor computes the aspect as
width/height, but the `|| 1` fallback engages exactly when that
quotient is falsy — i.e. exactly when the width is zero (quotient `0`
for positive height, `NaN` for the 0×0 un-laid-out container). When
the height is zero and the width positive the aspect is `Infinity`,
not `1`. -/
theorem initialAspect_characterization (w h : ℕ) :
    initialAspect w h =
      (if w = 0 then JSNum.fin 1
       else if h = 0 then JSNum.posInf
       else JSNum.fin ((w : ℚ) / (h : ℚ))) := by
  rcases eq_or_ne w 0 with hw | hw
  · subst hw
    rcases eq_or_ne h 0 with hh | hh
    · subst hh
      decide
    · simp [initialAspect, jsDivNat, jsOrOne, JSNum.truthy, hh]
  · rcases eq_or_ne h 0 with hh | hh
    · subst hh
      simp [initialAspect, jsDivNat, jsOrOne, JSNum.truthy, hw]
    · have hq : ((w : ℚ) / (h : ℚ)) ≠ 0 :=
        div_ne_zero (by exact_mod_cast hw) (by exact_mod_cast hh)
      simp [initialAspect, jsDivNat, jsOrOne, JSNum.truthy, hw, hh, hq]

/-! ### C10: rotation keys preserve the horizontal radius -/

theorem rotateYBy_sq (angle : ℝ) (p : Vec3) :
    (rotateYBy angle p).x ^ 2 + (rotateYBy angle p).z ^ 2 = p.x ^ 2 + p.z ^ 2 := by
  unfold rotateYBy
  dsimp only
  linear_combination (p.x ^ 2 + p.z ^ 2) * Real.sin_sq_add_cos_sq angle

theorem rotStep_sq (b : Bool) (angle : ℝ) (p : Vec3) :
    (if b then rotateYBy angle p else p).x ^ 2 + (if b then rotateYBy angle p else p).z ^ 2
      = p.x ^ 2 + p.z ^ 2 := by
  cases b
  · rfl
  · simpa using rotateYBy_sq angle p

theorem rotStep_y (b : Bool) (angle : ℝ) (p : Vec3) :
    (if b then rotateYBy angle p else p).y = p.y := by
  cases b <;> rfl

theorem handleRotationKeys_sq (k : RotKeys) (p : Vec3) :
    (handleRotationKeys k p).x ^ 2 + (handleRotationKeys k p).z ^ 2 = p.x ^ 2 + p.z ^ 2 := by
  unfold handleRotationKeys
  dsimp only
  rw [rotStep_sq, rotStep_sq, rotStep_sq, rotStep_sq]

theorem handleRotationKeys_y (k : RotKeys) (p : Vec3) :
    (handleRotationKeys k p).y = p.y := by
  unfold handleRotationKeys
  dsimp only
  rw [rotStep_y, rotStep_y, rotStep_y, rotStep_y]

/-- C10: over any number of `render()` calls, whatever rotation keys
are held at each call, the keyboard rotation steps preserve the
camera's squared horizontal distance `x² + z²` from the vertical axis
and never change its `y` coordinate (exact real arithmetic). -/
theorem camera_rotation_preserves_radius (ks : List RotKeys) (p : Vec3) :
    (renderRotations ks p).x ^ 2 + (renderRotations ks p).z ^ 2 = p.x ^ 2 + p.z ^ 2
    ∧ (renderRotations ks p).y = p.y := by
  induction ks generalizing p with
  | nil => exact ⟨rfl, rfl⟩
  | cons k ks ih =>
      have hfold : renderRotations (k :: ks) p = renderRotations ks (handleRotationKeys k p) :=
        rfl
      rw [hfold]
      obtain ⟨hsq, hy⟩ := ih (handleRotationKeys k p)
      exact ⟨by rw [hsq, handleRotationKeys_sq], by rw [hy, handleRotationKeys_y]⟩

/-! ### C3: the window is a 60-sample sliding window -/

theorem FPSCounter.update_length_le (s : FPSCounter) (t : ℚ)
    (h : s.frameTimes.length ≤ 60) : (s.update t).frameTimes.length ≤ 60 := by
  rw [FPSCounter.update_frameTimes, FPSCounter.updateFrame_frameTimes]
  split_ifs with h1 h2
  · simp only [List.length_tail, List.length_append, List.length_singleton]
    omega
  · simp only [List.length_append, List.length_singleton]
    simp only [maxFrameSamples, List.length_append, List.length_singleton, not_lt] at h2
    omega
  · exact h

theorem FPSCounter.runUpdates_length_le :
    ∀ (ts : List ℚ) (s : FPSCounter), s.frameTimes.length ≤ 60 →
      (s.runUpdates ts).frameTimes.length ≤ 60
  | [], _, h => h
  | t :: ts, s, h =>
      FPSCounter.runUpdates_length_le ts (s.update t) (s.update_length_le t h)

/-- C3: one `update` on a window within the 60-sample bound keeps it
within the bound, every run of `update` calls from a fresh monitor
keeps it within the bound, and on a full 60-sample window (with a
prior timestamp recorded) the oldest sample is evicted and the new
delta appended. -/
theorem FPSCounter.window_never_exceeds_60 (s : FPSCounter) (t : ℚ)
    (e0 e1 : Element) (ts : List ℚ) (hlen : s.frameTimes.length ≤ 60) :
    (s.update t).frameTimes.length ≤ 60
    ∧ ((FPSCounter.init e0 e1).runUpdates ts).frameTimes.length ≤ 60
    ∧ (s.frameTimes.length = 60 → 0 < s.lastTime →
        (s.update t).frameTimes = s.frameTimes.tail ++ [t - s.lastTime]) := by
  refine ⟨s.update_length_le t hlen,
    FPSCounter.runUpdates_length_le ts _ (by simp [FPSCounter.init]), ?_⟩
  intro h60 hpos
  have hne : s.frameTimes ≠ [] := by
    intro hx
    rw [hx] at h60
    simp at h60
  rw [FPSCounter.update_frameTimes, FPSCounter.updateFrame_frameTimes, if_pos hpos,
    if_pos (by simp [maxFrameSamples, h60]),
    List.tail_append_singleton_of_ne_nil hne]

/-- C3 witness: a fresh monitor satisfies the length bound, and the
conclusion holds at concrete inputs. -/
theorem FPSCounter.window_never_exceeds_60_witness :
    ((FPSCounter.init ⟨"fps", "0"⟩ ⟨"frametime", "0"⟩).update 3).frameTimes.length ≤ 60
    ∧ ((FPSCounter.init ⟨"fps", "0"⟩ ⟨"frametime", "0"⟩).runUpdates [1, 2]).frameTimes.length ≤ 60
    ∧ ((FPSCounter.init ⟨"fps", "0"⟩ ⟨"frametime", "0"⟩).frameTimes.length = 60 →
        0 < (FPSCounter.init ⟨"fps", "0"⟩ ⟨"frametime", "0"⟩).lastTime →
        ((FPSCounter.init ⟨"fps", "0"⟩ ⟨"frametime", "0"⟩).update 3).frameTimes =
          (FPSCounter.init ⟨"fps", "0"⟩ ⟨"frametime", "0"⟩).frameTimes.tail
            ++ [3 - (FPSCounter.init ⟨"fps", "0"⟩ ⟨"frametime", "0"⟩).lastTime]) :=
  FPSCounter.window_never_exceeds_60 (FPSCounter.init ⟨"fps", "0"⟩ ⟨"frametime", "0"⟩) 3
    ⟨"fps", "0"⟩ ⟨"frametime", "0"⟩ [1, 2] (by decide)

/-! ### C2: the per-call delta step, and its timestamp-0 exception -/

/-- C2 counterexample: the claim quantifies over runs whose first call
may be at timestamp 0.  But the source's "first call" sentinel is
`this.lastTime > 0`, and a first call at `0` leaves `lastTime = 0`, so
the second call `update 5` pushes NO delta (the claim says it pushes
`delta = 5`) and the window is still empty after two calls. -/
theorem FPSCounter.second_update_after_zero_pushes_nothing :
    ((FPSCounter.init ⟨"fps", "0"⟩ ⟨"frametime", "0"⟩).update 0 |>.update 5).frameTimes = []
    ∧ ((FPSCounter.init ⟨"fps", "0"⟩ ⟨"frametime", "0"⟩).update 0 |>.update 5).currentFPS = 0 := by
  constructor <;>
    norm_num [FPSCounter.update, FPSCounter.updateFrame, FPSCounter.updateDisplay,
      FPSCounter.init, fpsUpdateInterval, maxFrameSamples]

/-- The window produced by the frame-time block when a positive prior
timestamp exists, together with the recomputed FPS. -/
theorem FPSCounter.updateFrame_spec_of_pos (s : FPSCounter) (t : ℚ)
    (hpos : 0 < s.lastTime) :
    (s.updateFrame t).frameTimes =
      (if maxFrameSamples < (s.frameTimes ++ [t - s.lastTime]).length
       then (s.frameTimes ++ [t - s.lastTime]).tail
       else s.frameTimes ++ [t - s.lastTime])
    ∧ 0 < (s.updateFrame t).frameTimes.length
    ∧ (s.updateFrame t).currentFPS =
        (if 0 < (s.updateFrame t).frameTimes.sum / ((s.updateFrame t).frameTimes.length : ℚ)
         then round ((1000 : ℚ) /
            ((s.updateFrame t).frameTimes.sum / ((s.updateFrame t).frameTimes.length : ℚ)))
         else 0) := by
  have hE : 0 < (if maxFrameSamples < (s.frameTimes ++ [t - s.lastTime]).length
      then (s.frameTimes ++ [t - s.lastTime]).tail
      else (s.frameTimes ++ [t - s.lastTime])).length := by
    split_ifs with h
    · simp only [List.length_tail, List.length_append, List.length_singleton]
      simp only [maxFrameSamples, List.length_append, List.length_singleton] at h
      omega
    · simp
  unfold FPSCounter.updateFrame
  rw [if_pos hpos]
  dsimp only
  rw [if_pos hE]
  exact ⟨rfl, hE, rfl⟩

/-- C2 (amended): the claim's delta step is correct whenever the
previously recorded timestamp is positive — which is "from the second
call onward" exactly when the first call's timestamp was positive; a
first call at timestamp 0 is indistinguishable from the initial state,
so the delta computation starts one call later.  Under `lastTime > 0`:
the delta `t - lastTime` is pushed (oldest sample evicted when the
window is full), the window is now non-empty, and `currentFPS` becomes
`round (1000 / average)` for a positive window average and `0`
otherwise. -/
theorem FPSCounter.update_delta_step (s : FPSCounter) (t : ℚ)
    (hpos : 0 < s.lastTime) (hlen : s.frameTimes.length ≤ 60) :
    (s.update t).frameTimes =
      (if s.frameTimes.length < 60 then s.frameTimes ++ [t - s.lastTime]
       else s.frameTimes.tail ++ [t - s.lastTime])
    ∧ (s.update t).frameTimes ≠ []
    ∧ (0 < (s.update t).frameTimes.sum / ((s.update t).frameTimes.length : ℚ) →
        (s.update t).currentFPS =
          round ((1000 : ℚ) / ((s.update t).frameTimes.sum / ((s.update t).frameTimes.length : ℚ))))
    ∧ (¬ 0 < (s.update t).frameTimes.sum / ((s.update t).frameTimes.length : ℚ) →
        (s.update t).currentFPS = 0) := by
  obtain ⟨hft, hlenpos, hfps⟩ := s.updateFrame_spec_of_pos t hpos
  have huf : (s.update t).frameTimes = (s.updateFrame t).frameTimes := s.update_frameTimes t
  have hufps : (s.update t).currentFPS = (s.updateFrame t).currentFPS := s.update_currentFPS t
  refine ⟨?_, ?_, ?_, ?_⟩
  · rw [huf, hft]
    rcases lt_or_ge s.frameTimes.length 60 with hcase | hcase
    · have hB : ¬ maxFrameSamples < (s.frameTimes ++ [t - s.lastTime]).length := by
        simp only [maxFrameSamples, List.length_append, List.length_singleton, not_lt]
        omega
      rw [if_pos hcase, if_neg hB]
    · have h60 : s.frameTimes.length = 60 := le_antisymm hlen hcase
      have hne : s.frameTimes ≠ [] := by
        intro hx
        rw [hx] at h60
        simp at h60
      have hA : ¬ s.frameTimes.length < 60 := by omega
      have hB : maxFrameSamples < (s.frameTimes ++ [t - s.lastTime]).length := by
        simp [maxFrameSamples, h60]
      rw [if_neg hA, if_pos hB, List.tail_append_singleton_of_ne_nil hne]
  · rw [huf]
    intro hx
    rw [hx] at hlenpos
    simp at hlenpos
  · intro hx
    rw [huf] at hx
    rw [hufps, hfps, if_pos hx, huf]
  · intro hx
    rw [huf] at hx
    rw [hufps, hfps, if_neg hx]

/-- C2 witness: the amended delta step at a concrete state (prior
timestamp 1) and call `update 3`. -/
theorem FPSCounter.update_delta_step_witness :
    (counterW.update 3).frameTimes =
      (if counterW.frameTimes.length < 60 then counterW.frameTimes ++ [3 - counterW.lastTime]
       else counterW.frameTimes.tail ++ [3 - counterW.lastTime])
    ∧ (counterW.update 3).frameTimes ≠ []
    ∧ (0 < (counterW.update 3).frameTimes.sum / ((counterW.update 3).frameTimes.length : ℚ) →
        (counterW.update 3).currentFPS =
          round ((1000 : ℚ) /
            ((counterW.update 3).frameTimes.sum / ((counterW.update 3).frameTimes.length : ℚ))))
    ∧ (¬ 0 < (counterW.update 3).frameTimes.sum / ((counterW.update 3).frameTimes.length : ℚ) →
        (counterW.update 3).currentFPS = 0) :=
  FPSCounter.update_delta_step counterW 3 (by decide) (by decide)

/-! ### C9: guarded divisions — equal timestamps yield 0, not a crash -/

/-- One `update` preserves "FPS is 0 and every sample is 0" when every
call so far used the same timestamp `t` (or none yet). -/
theorem FPSCounter.update_zero_inv (s : FPSCounter) (t : ℚ)
    (hfps : s.currentFPS = 0) (hall : ∀ q ∈ s.frameTimes, q = 0)
    (hlt : s.lastTime = 0 ∨ s.lastTime = t) :
    (s.update t).currentFPS = 0 ∧ (∀ q ∈ (s.update t).frameTimes, q = 0)
    ∧ ((s.update t).lastTime = 0 ∨ (s.update t).lastTime = t) := by
  have hlast : (s.update t).lastTime = t := s.update_lastTime t
  by_cases hpos : 0 < s.lastTime
  · have hlt' : s.lastTime = t := by
      rcases hlt with h0 | h0
      · rw [h0] at hpos
        exact absurd hpos (lt_irrefl 0)
      · exact h0
    obtain ⟨hft, hlenpos, hfpseq⟩ := s.updateFrame_spec_of_pos t hpos
    have hall0 : ∀ q ∈ s.frameTimes ++ [t - s.lastTime], q = 0 := by
      intro q hq
      rcases List.mem_append.mp hq with h | h
      · exact hall q h
      · rw [List.mem_singleton.mp h, hlt', sub_self]
    have hall' : ∀ q ∈ (s.updateFrame t).frameTimes, q = 0 := by
      rw [hft]
      split_ifs with h
      · intro q hq
        exact hall0 q (List.mem_of_mem_tail hq)
      · exact hall0
    have hfz : (s.updateFrame t).currentFPS = 0 := by
      rw [hfpseq, List.sum_eq_zero hall', zero_div]
      simp
    refine ⟨by rw [s.update_currentFPS t]; exact hfz, ?_, Or.inr hlast⟩
    intro q hq
    rw [s.update_frameTimes t] at hq
    exact hall' q hq
  · have hueq : s.updateFrame t = s := by
      unfold FPSCounter.updateFrame
      rw [if_neg hpos]
    refine ⟨?_, ?_, Or.inr hlast⟩
    · rw [s.update_currentFPS t, hueq]
      exact hfps
    · intro q hq
      rw [s.update_frameTimes t, hueq] at hq
      exact hall q hq

theorem FPSCounter.runUpdates_replicate_zero (n : ℕ) (s : FPSCounter) (t : ℚ)
    (h1 : s.currentFPS = 0) (h2 : ∀ q ∈ s.frameTimes, q = 0)
    (h3 : s.lastTime = 0 ∨ s.lastTime = t) :
    (s.runUpdates (List.replicate n t)).currentFPS = 0
    ∧ ∀ q ∈ (s.runUpdates (List.replicate n t)).frameTimes, q = 0 := by
  induction n generalizing s with
  | zero => exact ⟨h1, h2⟩
  | succ n ih =>
      rw [List.replicate_succ, FPSCounter.runUpdates]
      obtain ⟨g1, g2, g3⟩ := s.update_zero_inv t h1 h2 h3
      exact ih (s.update t) g1 g2 g3

/-- C9: the monitor never divides by zero — the FPS division is
guarded by `average > 0` and the frame-time division by window
non-emptiness.  Concretely, on a run of `update` calls at one repeated
(positive) timestamp every recorded delta is 0, the non-empty window
averages to 0, and both `getCurrentFPS` and `getCurrentFrameTime`
return 0 instead of failing; on an empty window `getCurrentFrameTime`
returns 0 without dividing. -/
theorem FPSCounter.equal_timestamps_fps_zero (e0 e1 : Element) (t : ℚ) (n : ℕ)
    (_ht : 0 < t) :
    ((FPSCounter.init e0 e1).runUpdates (List.replicate n t)).getCurrentFPS = 0
    ∧ ((FPSCounter.init e0 e1).runUpdates (List.replicate n t)).getCurrentFrameTime = 0
    ∧ (∀ s : FPSCounter, s.frameTimes = [] → s.getCurrentFrameTime = 0) := by
  obtain ⟨g1, g2⟩ := FPSCounter.runUpdates_replicate_zero n (FPSCounter.init e0 e1) t rfl
    (by simp [FPSCounter.init]) (Or.inl rfl)
  refine ⟨?_, ?_, ?_⟩
  · simpa [FPSCounter.getCurrentFPS] using g1
  · unfold FPSCounter.getCurrentFrameTime
    split_ifs with h
    · rfl
    · rw [List.sum_eq_zero g2, zero_div]
  · intro s hs
    unfold FPSCounter.getCurrentFrameTime
    rw [hs]
    simp

/-- C9 witness: five `update` calls all at timestamp 16. -/
theorem FPSCounter.equal_timestamps_fps_zero_witness :
    ((FPSCounter.init ⟨"fps", "0"⟩ ⟨"frametime", "0"⟩).runUpdates
        (List.replicate 5 16)).getCurrentFPS = 0
    ∧ ((FPSCounter.init ⟨"fps", "0"⟩ ⟨"frametime", "0"⟩).runUpdates
        (List.replicate 5 16)).getCurrentFrameTime = 0
    ∧ (∀ s : FPSCounter, s.frameTimes = [] → s.getCurrentFrameTime = 0) :=
  FPSCounter.equal_timestamps_fps_zero ⟨"fps", "0"⟩ ⟨"frametime", "0"⟩ 16 5 (by decide)

/-! ### C1: display writes are throttled to one per 1000 ms -/

/-- Every write time in a run is at least one full interval after the
`lastFPSUpdate` of the starting state. -/
theorem FPSCounter.writeTimes_lower :
    ∀ (ts : List ℚ) (s : FPSCounter) (u : ℚ),
      u ∈ s.writeTimes ts → s.lastFPSUpdate + fpsUpdateInterval ≤ u
  | [], _, u, h => absurd h (List.not_mem_nil u)
  | t :: ts, s, u, h => by
      rw [FPSCounter.writeTimes] at h
      by_cases hw : s.writesDisplay t = true
      · rw [if_pos hw] at h
        rcases List.mem_cons.mp h with rfl | hmem
        · have hg := ((s.writesDisplay_iff u).mp hw).1
          linarith
        · have hlow := FPSCounter.writeTimes_lower ts (s.update t) u hmem
          have hlfu : (s.update t).lastFPSUpdate = t := s.update_lastFPSUpdate_of_writes t hw
          have hg := ((s.writesDisplay_iff t).mp hw).1
          have hI : (0 : ℚ) ≤ fpsUpdateInterval := by norm_num [fpsUpdateInterval]
          rw [hlfu] at hlow
          linarith
      · rw [if_neg hw] at h
        have hlow := FPSCounter.writeTimes_lower ts (s.update t) u h
        have heq := (s.update_of_not_writes t (by simpa using hw)).1
        rw [heq] at hlow
        exact hlow

/-- Consecutive display writes in any run are at least one interval
apart. -/
theorem FPSCounter.writeTimes_chain :
    ∀ (ts : List ℚ) (s : FPSCounter),
      List.Chain' (fun a b => a + fpsUpdateInterval ≤ b) (s.writeTimes ts)
  | [], _ => List.chain'_nil
  | t :: ts, s => by
      rw [FPSCounter.writeTimes]
      by_cases hw : s.writesDisplay t = true
      · rw [if_pos hw]
        refine List.chain'_cons'.mpr ⟨?_, FPSCounter.writeTimes_chain ts (s.update t)⟩
        intro b hb
        have hmem : b ∈ (s.update t).writeTimes ts := List.mem_of_mem_head? hb
        have hlow := FPSCounter.writeTimes_lower ts (s.update t) b hmem
        rw [s.update_lastFPSUpdate_of_writes t hw] at hlow
        exact hlow
      · rw [if_neg hw]
        exact FPSCounter.writeTimes_chain ts (s.update t)

/-- C1: the display elements' text is written during `update t` only
when `t - lastFPSUpdate ≥ 1000` AND the sample window is non-empty;
each write stamps `lastFPSUpdate := t`, a non-writing call leaves both
element texts and `lastFPSUpdate` untouched, and consequently in any
run of `update` calls (the caller contract supplies non-decreasing
timestamps) consecutive display writes are at least 1000 ms apart —
the display is refreshed at most once per 1000 ms, never on every
frame. -/
theorem FPSCounter.display_write_throttled (s : FPSCounter) (t : ℚ) (ts : List ℚ)
    (_hmono : List.Chain' (· ≤ ·) ts) :
    (s.writesDisplay t = true →
        fpsUpdateInterval ≤ t - s.lastFPSUpdate
        ∧ (s.updateFrame t).frameTimes ≠ []
        ∧ (s.update t).lastFPSUpdate = t)
    ∧ (s.writesDisplay t = false →
        (s.update t).fpsElement = s.fpsElement
        ∧ (s.update t).frameTimeElement = s.frameTimeElement
        ∧ (s.update t).lastFPSUpdate = s.lastFPSUpdate)
    ∧ List.Chain' (fun a b => a + fpsUpdateInterval ≤ b) (s.writeTimes ts) := by
  refine ⟨?_, ?_, FPSCounter.writeTimes_chain ts s⟩
  · intro hw
    obtain ⟨h1, h2⟩ := (s.writesDisplay_iff t).mp hw
    exact ⟨h1, List.length_pos.mp h2, s.update_lastFPSUpdate_of_writes t hw⟩
  · intro hw
    obtain ⟨ha, hb, hc⟩ := s.update_of_not_writes t hw
    exact ⟨hb, hc, ha⟩

/-- C1 witness: a fresh monitor driven at the non-decreasing
timestamps 1 and 1500. -/
theorem FPSCounter.display_write_throttled_witness :
    ((FPSCounter.init ⟨"fps", "0"⟩ ⟨"frametime", "0"⟩).writesDisplay 1 = true →
        fpsUpdateInterval ≤ 1 - (FPSCounter.init ⟨"fps", "0"⟩ ⟨"frametime", "0"⟩).lastFPSUpdate
        ∧ ((FPSCounter.init ⟨"fps", "0"⟩ ⟨"frametime", "0"⟩).updateFrame 1).frameTimes ≠ []
        ∧ ((FPSCounter.init ⟨"fps", "0"⟩ ⟨"frametime", "0"⟩).update 1).lastFPSUpdate = 1)
    ∧ ((FPSCounter.init ⟨"fps", "0"⟩ ⟨"frametime", "0"⟩).writesDisplay 1 = false →
        ((FPSCounter.init ⟨"fps", "0"⟩ ⟨"frametime", "0"⟩).update 1).fpsElement =
          (FPSCounter.init ⟨"fps", "0"⟩ ⟨"frametime", "0"⟩).fpsElement
        ∧ ((FPSCounter.init ⟨"fps", "0"⟩ ⟨"frametime", "0"⟩).update 1).frameTimeElement =
          (FPSCounter.init ⟨"fps", "0"⟩ ⟨"frametime", "0"⟩).frameTimeElement
        ∧ ((FPSCounter.init ⟨"fps", "0"⟩ ⟨"frametime", "0"⟩).update 1).lastFPSUpdate =
          (FPSCounter.init ⟨"fps", "0"⟩ ⟨"frametime", "0"⟩).lastFPSUpdate)
    ∧ List.Chain' (fun a b => a + fpsUpdateInterval ≤ b)
        ((FPSCounter.init ⟨"fps", "0"⟩ ⟨"frametime", "0"⟩).writeTimes [1, 1500]) :=
  FPSCounter.display_write_throttled (FPSCounter.init ⟨"fps", "0"⟩ ⟨"frametime", "0"⟩) 1
    [1, 1500] (by norm_num)

/-! ### C5: at most one frame callback is ever pending -/

theorem SceneState.animateOnce_spec (st : SceneState) :
    st.animateOnce =
      { pending := st.pending ++ [st.nextId], nextId := st.nextId + 1,
        animationId := some st.nextId } := rfl

theorem SceneState.start_inv (st : SceneState) (h : SceneInvariant st) :
    SceneInvariant st.start := by
  rcases h with ⟨h1, h2⟩ | ⟨i, h1, h2⟩
  · simp only [SceneState.start, h1]
    refine Or.inr ⟨st.nextId, rfl, ?_⟩
    simp [SceneState.animateOnce_spec, h2]
  · simp only [SceneState.start, h1]
    exact Or.inr ⟨i, h1, h2⟩

theorem SceneState.stop_inv (st : SceneState) (h : SceneInvariant st) :
    SceneInvariant st.stop := by
  rcases h with ⟨h1, h2⟩ | ⟨i, h1, h2⟩
  · simp only [SceneState.stop, h1]
    exact Or.inl ⟨h1, h2⟩
  · simp only [SceneState.stop, h1]
    refine Or.inl ⟨rfl, ?_⟩
    simp [SceneState.cancelFrame, h2]

theorem SceneState.stop_animationId (st : SceneState) : st.stop.animationId = none := by
  unfold SceneState.stop
  rcases h : st.animationId with _ | i
  · simpa using h
  · rfl

theorem SceneInvariant.pending_eq_nil (st : SceneState) (h : SceneInvariant st)
    (hn : st.animationId = none) : st.pending = [] := by
  rcases h with ⟨h1, h2⟩ | ⟨i, h1, h2⟩
  · exact h2
  · rw [hn] at h1
    exact Option.noConfusion h1

theorem SceneState.start_pending_length (st : SceneState) (h : SceneInvariant st) :
    st.start.pending.length = 1 := by
  rcases h with ⟨h1, h2⟩ | ⟨i, h1, h2⟩
  · simp only [SceneState.start, h1]
    simp [SceneState.animateOnce_spec, h2]
  · simp only [SceneState.start, h1]
    simp [h2]

theorem SceneState.start_start (st : SceneState) : st.start.start = st.start := by
  rcases h : st.animationId with _ | i
  · have hs : st.start = st.animateOnce := by simp only [SceneState.start, h]
    rw [hs]
    rfl
  · have hs : st.start = st := by simp only [SceneState.start, h]
    rw [hs]
    exact hs

theorem SceneState.step_inv (st : SceneState) (e : SceneEvent) (h : SceneInvariant st) :
    SceneInvariant (st.step e) := by
  cases e with
  | start => exact st.start_inv h
  | stop => exact st.stop_inv h
  | frame =>
      rcases h with ⟨h1, h2⟩ | ⟨i, h1, h2⟩
      · simp only [SceneState.step, h2]
        exact Or.inl ⟨h1, h2⟩
      · simp only [SceneState.step, h2]
        rw [SceneState.animateOnce_spec]
        exact Or.inr ⟨_, rfl, by simp⟩

theorem SceneState.run_inv (evs : List SceneEvent) : SceneInvariant (SceneState.run evs) := by
  have key : ∀ (l : List SceneEvent) (st : SceneState), SceneInvariant st →
      SceneInvariant (l.foldl SceneState.step st) := by
    intro l
    induction l with
    | nil =>
        intro st h
        exact h
    | cons e l ih =>
        intro st h
        exact ih (st.step e) (st.step_inv e h)
  exact key evs SceneState.mkScene (Or.inl ⟨rfl, rfl⟩)

theorem SceneInvariant.length_le_one (st : SceneState) (h : SceneInvariant st) :
    st.pending.length ≤ 1 := by
  rcases h with ⟨_, h2⟩ | ⟨i, _, h2⟩ <;> simp [h2]

/-- C5: in every state reachable by `start`/`stop`/frame events from
construction, at most one frame callback is pending; `start` when
already running is a no-op (so `start` twice leaves exactly one
scheduled callback), `stop` cancels the pending callback (and is a
no-op when not running), and `stop` followed by `start` resumes with
exactly one scheduled callback. -/
theorem SceneState.single_pending_callback (evs : List SceneEvent) :
    (SceneState.run evs).pending.length ≤ 1
    ∧ (SceneState.run evs).start.start = (SceneState.run evs).start
    ∧ (SceneState.run evs).start.pending.length = 1
    ∧ ((SceneState.run evs).animationId = none →
        (SceneState.run evs).stop = SceneState.run evs)
    ∧ (SceneState.run evs).stop.pending = []
    ∧ (SceneState.run evs).stop.animationId = none
    ∧ (SceneState.run evs).stop.start.pending.length = 1 := by
  have hinv := SceneState.run_inv evs
  refine ⟨SceneInvariant.length_le_one _ hinv, SceneState.start_start _,
    SceneState.start_pending_length _ hinv, ?_, ?_, SceneState.stop_animationId _, ?_⟩
  · intro hn
    unfold SceneState.stop
    rw [hn]
  · exact SceneInvariant.pending_eq_nil _ (SceneState.stop_inv _ hinv)
      (SceneState.stop_animationId _)
  · exact SceneState.start_pending_length _ (SceneState.stop_inv _ hinv)

/-- C5 witness: after the concrete event sequence start, frame, stop,
start. -/
theorem SceneState.single_pending_callback_witness :
    (SceneState.run [SceneEvent.start, SceneEvent.frame, SceneEvent.stop,
        SceneEvent.start]).pending.length ≤ 1
    ∧ (SceneState.run [SceneEvent.start, SceneEvent.frame, SceneEvent.stop,
        SceneEvent.start]).start.start =
      (SceneState.run [SceneEvent.start, SceneEvent.frame, SceneEvent.stop,
        SceneEvent.start]).start
    ∧ (SceneState.run [SceneEvent.start, SceneEvent.frame, SceneEvent.stop,
        SceneEvent.start]).start.pending.length = 1
    ∧ ((SceneState.run [SceneEvent.start, SceneEvent.frame, SceneEvent.stop,
        SceneEvent.start]).animationId = none →
        (SceneState.run [SceneEvent.start, SceneEvent.frame, SceneEvent.stop,
          SceneEvent.start]).stop =
          SceneState.run [SceneEvent.start, SceneEvent.frame, SceneEvent.stop,
            SceneEvent.start])
    ∧ (SceneState.run [SceneEvent.start, SceneEvent.frame, SceneEvent.stop,
        SceneEvent.start]).stop.pending = []
    ∧ (SceneState.run [SceneEvent.start, SceneEvent.frame, SceneEvent.stop,
        SceneEvent.start]).stop.animationId = none
    ∧ (SceneState.run [SceneEvent.start, SceneEvent.frame, SceneEvent.stop,
        SceneEvent.start]).stop.start.pending.length = 1 :=
  SceneState.single_pending_callback
    [SceneEvent.start, SceneEvent.frame, SceneEvent.stop, SceneEvent.start]
